import Mathlib

/-
Verification development for the terraform-provider-supabase function
resource and function_body data source.

The Go source (internal/provider/function_resource.go and
internal/provider/function_body_data_source.go) is shallowly embedded:

* Terraform plugin-framework value types (types.String, types.Bool,
  types.Int64) become three-valued inductives (null / unknown / value).
* Byte sequences (file contents, HTTP bodies, multipart part contents)
  are modelled as Lean strings; Go's byte/string conversions are
  byte-preserving, so `string(b)` is the identity in the model.
* The filesystem under source_dir is modelled as a pure tree of entries,
  listed in the lexical name order in which filepath.Walk visits them; a
  WalkResult either carries such a tree or the error filepath.Walk
  returns (nonexistent directory, failing os.Open or io.Copy).
* The HTTP client is an external collaborator: each operation consumes a
  `Transport` value (transport error or a typed response) and records the
  request it issued in a trace.
-/

/-- Model of terraform-plugin-framework types.String: null, unknown, or a
known string value. -/
inductive TfString where
  | null
  | unknown
  | value (s : String)
deriving Repr, DecidableEq

/-- Go types.String.ValueString: the known value, or "" for null/unknown. -/
def TfString.valueString : TfString → String
  | .value s => s
  | _ => ""

/-- Go types.String.IsNull. -/
def TfString.isNull : TfString → Bool
  | .null => true
  | _ => false

/-- Go types.String.IsUnknown. -/
def TfString.isUnknown : TfString → Bool
  | .unknown => true
  | _ => false

/-- Go types.String.ValueStringPointer: nil when null, otherwise a pointer
to the underlying value (the zero value "" when unknown). -/
def TfString.valueStringPointer : TfString → Option String
  | .null => none
  | .unknown => some ""
  | .value s => some s

/-- Model of terraform-plugin-framework types.Bool. -/
inductive TfBool where
  | null
  | unknown
  | value (b : Bool)
deriving Repr, DecidableEq

/-- Go types.Bool.ValueBool: the known value, or false for null/unknown. -/
def TfBool.valueBool : TfBool → Bool
  | .value b => b
  | _ => false

/-- Go types.Bool.IsNull. -/
def TfBool.isNull : TfBool → Bool
  | .null => true
  | _ => false

/-- Go types.Bool.IsUnknown. -/
def TfBool.isUnknown : TfBool → Bool
  | .unknown => true
  | _ => false

/-- Model of terraform-plugin-framework types.Int64. -/
inductive TfInt64 where
  | null
  | unknown
  | value (i : Int)
deriving Repr, DecidableEq

/-- FunctionResourceModel from function_resource.go: the resource data
model with its twelve tfsdk attributes. -/
structure FunctionResourceModel where
  projectRef : TfString
  slug : TfString
  entrypointPath : TfString
  sourceDir : TfString
  name : TfString
  verifyJwt : TfBool
  importMapPath : TfString
  id : TfString
  status : TfString
  version : TfInt64
  createdAt : TfInt64
  updatedAt : TfInt64
deriving Repr, DecidableEq

/-- FunctionDeployMetadata from function_resource.go: the struct whose JSON
encoding becomes the "metadata" form field.  Field order matches the Go
struct declaration order, which fixes the JSON field order. -/
structure FunctionDeployMetadata where
  entrypoint_path : String
  import_map_path : Option String
  name : Option String
  static_patterns : List String
  verify_jwt : Option Bool
deriving Repr, DecidableEq

/-- filepath.ToSlash: replaces the OS path separator with '/'.  The model
fixes the separator to '/', under which ToSlash is the identity. -/
def filepathToSlash (s : String) : String := s

/-- The metadata struct deployFunction builds from the plan: entrypoint
always; name, verify_jwt, import_map_path only when non-null and known;
static_patterns never set. -/
def buildMetadata (data : FunctionResourceModel) : FunctionDeployMetadata :=
  { entrypoint_path := filepathToSlash data.entrypointPath.valueString
    import_map_path :=
      if !data.importMapPath.isNull && !data.importMapPath.isUnknown then
        some (filepathToSlash data.importMapPath.valueString)
      else none
    name :=
      if !data.name.isNull && !data.name.isUnknown then
        some data.name.valueString
      else none
    static_patterns := []
    verify_jwt :=
      if !data.verifyJwt.isNull && !data.verifyJwt.isUnknown then
        some data.verifyJwt.valueBool
      else none }

/-- Two lowercase hex digits of a byte, for \u00XX escapes. -/
def hexDigit (n : Nat) : Char :=
  if n < 10 then Char.ofNat (48 + n) else Char.ofNat (87 + n)

/-- encoding/json escaping of one character inside a JSON string literal
(default encoder: escapes quote, backslash, the HTML characters and
control characters). -/
def jsonEscapeChar (c : Char) : String :=
  if c = '"' then "\\\""
  else if c = '\\' then "\\\\"
  else if c = '<' then "\\u003c"
  else if c = '>' then "\\u003e"
  else if c = '&' then "\\u0026"
  else if c = '\n' then "\\n"
  else if c = '\r' then "\\r"
  else if c = '\t' then "\\t"
  else if c.toNat < 32 then
    String.mk ['\\', 'u', '0', '0', hexDigit (c.toNat / 16), hexDigit (c.toNat % 16)]
  else String.singleton c

/-- encoding/json string literal: quoted and escaped. -/
def jsonString (s : String) : String :=
  "\"" ++ String.join (s.data.map jsonEscapeChar) ++ "\""

/-- encoding/json array of strings. -/
def jsonStringArray (l : List String) : String :=
  "[" ++ String.intercalate "," (l.map jsonString) ++ "]"

/-- encoding/json encoding of FunctionDeployMetadata: fields in struct
order; the pointer fields and the slice carry omitempty, so nil pointers
and nil/empty slices are omitted. -/
def encodeMetadata (m : FunctionDeployMetadata) : String :=
  "\x7b\"entrypoint_path\":" ++ jsonString m.entrypoint_path
    ++ (match m.import_map_path with
        | none => ""
        | some p => ",\"import_map_path\":" ++ jsonString p)
    ++ (match m.name with
        | none => ""
        | some n => ",\"name\":" ++ jsonString n)
    ++ (match m.static_patterns with
        | [] => ""
        | ps => ",\"static_patterns\":" ++ jsonStringArray ps)
    ++ (match m.verify_jwt with
        | none => ""
        | some b => ",\"verify_jwt\":" ++ (if b then "true" else "false"))
    ++ "\x7d"

example :
    encodeMetadata (buildMetadata
      { projectRef := .value "ref", slug := .value "hello"
        entrypointPath := .value "index.ts", sourceDir := .value "src"
        name := .null, verifyJwt := .value true, importMapPath := .null
        id := .unknown, status := .unknown, version := .unknown
        createdAt := .unknown, updatedAt := .unknown })
      = "\x7b\"entrypoint_path\":\"index.ts\",\"verify_jwt\":true\x7d" := by
  decide

/-- An entry of the filesystem tree under source_dir: a regular file with
its byte contents, or a directory with its children.  Each entries list is
in the lexical name order in which filepath.Walk visits a directory. -/
inductive FsEntry where
  | file (name : String) (content : String)
  | dir (name : String) (entries : List FsEntry)

/-- filepath.Join of a relative path built so far with the next name,
followed by ToSlash; the empty path stands for source_dir itself. -/
def joinRel (pre nm : String) : String :=
  if pre = "" then nm else pre ++ "/" ++ nm

/-- One part of the multipart/form-data body held by the multipart.Writer:
CreateFormField gives a part without filename, CreateFormFile one with a
filename; content is the bytes written to the part. -/
structure FormPart where
  name : String
  filename : Option String
  content : String
deriving Repr, DecidableEq

/-- The part CreateFormFile ++ io.Copy produces for one regular file. -/
def filePart (relPath content : String) : FormPart :=
  { name := "file", filename := some relPath, content := content }

mutual

/-- The filepath.Walk callback of deployFunction on a single entry,
threading the multipart.Writer state: a directory contributes nothing
itself and is recursed into; a regular file appends one "file" part whose
filename is the entry's path relative to source_dir. -/
def walkEntry (pre : String) (acc : List FormPart) : FsEntry → List FormPart
  | .file nm c => acc ++ [filePart (joinRel pre nm) c]
  | .dir nm es => walkEntries (joinRel pre nm) acc es

/-- filepath.Walk over the (lexically ordered) entries of one directory. -/
def walkEntries (pre : String) (acc : List FormPart) : List FsEntry → List FormPart
  | [] => acc
  | e :: es => walkEntries pre (walkEntry pre acc e) es

end

mutual

/-- Declarative reading of the walk: the (relative path, content) pairs of
the regular files reachable from one entry. -/
def filesOfEntry (pre : String) : FsEntry → List (String × String)
  | .file nm c => [(joinRel pre nm, c)]
  | .dir nm es => filesOfEntries (joinRel pre nm) es

/-- Declarative reading of the walk over a list of entries. -/
def filesOfEntries (pre : String) : List FsEntry → List (String × String)
  | [] => []
  | e :: es => filesOfEntry pre e ++ filesOfEntries pre es

end

/-- The complete multipart body deployFunction builds: the "metadata" form
field first (json.Encoder.Encode appends a newline), then the walk over
source_dir. -/
def deployBody (data : FunctionResourceModel) (fs : List FsEntry) : List FormPart :=
  let metadataPart : FormPart :=
    { name := "metadata", filename := none
      content := encodeMetadata (buildMetadata data) ++ "\n" }
  walkEntries "" [metadataPart] fs

/-- An HTTP request issued through the generated API client.  The deploy
request carries the multipart body as its list of form parts; the slug
query parameter is the optional pointer from ValueStringPointer. -/
inductive Request where
  | deploy (projectRef : String) (slug : Option String) (parts : List FormPart)
  | getFunction (projectRef : String) (slug : String)
  | deleteFunction (projectRef : String) (slug : String)
  | getFunctionBody (projectRef : String) (slug : String)
deriving Repr, DecidableEq

/-- Outcome of one client call: a transport-level error (err != nil in Go)
or a typed response. -/
inductive Transport (ρ : Type) where
  | err (msg : String)
  | ok (resp : ρ)
deriving Repr, DecidableEq

/-- api.FunctionResponse, the JSON201 payload of the deploy endpoint:
CreatedAt and UpdatedAt are pointer fields there. -/
structure FunctionResponse201 where
  id : String
  slug : String
  name : String
  status : String
  version : Int
  created_at : Option Int
  updated_at : Option Int
deriving Repr, DecidableEq

/-- Typed response of V1DeployAFunctionWithBodyWithResponse: status code,
raw body, and the parsed JSON201 payload when the server answered 201. -/
structure DeployHttpResponse where
  statusCode : Int
  body : String
  json201 : Option FunctionResponse201
deriving Repr, DecidableEq

/-- api.FunctionSlugResponse, the JSON200 payload of the get endpoint:
CreatedAt and UpdatedAt are plain int64 there, VerifyJwt a pointer. -/
structure FunctionSlugResponse where
  id : String
  slug : String
  name : String
  status : String
  version : Int
  created_at : Int
  updated_at : Int
  verify_jwt : Option Bool
deriving Repr, DecidableEq

/-- Typed response of V1GetAFunctionWithResponse. -/
structure GetHttpResponse where
  statusCode : Int
  body : String
  json200 : Option FunctionSlugResponse
deriving Repr, DecidableEq

/-- Typed response of V1DeleteAFunctionWithResponse; deleteFunction only
inspects the status code and raw body. -/
structure DeleteHttpResponse where
  statusCode : Int
  body : String
deriving Repr, DecidableEq

/-- Typed response of V1GetAFunctionBodyWithResponse; the data source only
inspects the status code and raw body. -/
structure BodyHttpResponse where
  statusCode : Int
  body : String
deriving Repr, DecidableEq

/-- One diag.Diagnostic; every diagnostic this provider creates is an
error diagnostic (diag.NewErrorDiagnostic / AddError). -/
structure Diagnostic where
  summary : String
  detail : String
deriving Repr, DecidableEq

/-- diag.Diagnostics.HasError: all diagnostics in this provider are error
severity, so it holds exactly when the list is nonempty. -/
def hasError (d : List Diagnostic) : Bool :=
  !d.isEmpty

/-- diag.NewErrorDiagnostic "Client Error" msg. -/
def clientError (msg : String) : Diagnostic :=
  { summary := "Client Error", detail := msg }

/-- Result of a helper that may mutate the model in place (deployFunction,
readFunction): the diagnostics returned, the model after the call, and the
requests issued through the client. -/
structure HelperResult where
  diags : List Diagnostic
  model : FunctionResourceModel
  requests : List Request
deriving Repr, DecidableEq

/-- deployFunction from function_resource.go, specialised to a successful
walk of source_dir (the tree of regular files the walk produced): the
multipart body is built from the plan and that tree, one deploy request is
issued, and on a parsed 201 payload the model's computed fields are
overwritten from the response.  deployFunctionFull below adds the
filepath.Walk failure branch of the Go function. -/
def deployFunction (data : FunctionResourceModel) (fs : List FsEntry)
    (transport : Transport DeployHttpResponse) : HelperResult :=
  let req : Request :=
    .deploy data.projectRef.valueString data.slug.valueStringPointer
      (deployBody data fs)
  match transport with
  | .err e =>
      { diags := [clientError ("Unable to deploy function, got error: " ++ e)]
        model := data, requests := [req] }
  | .ok resp =>
      match resp.json201 with
      | none =>
          { diags := [clientError ("Unable to deploy function, got status "
              ++ toString resp.statusCode ++ ": " ++ resp.body)]
            model := data, requests := [req] }
      | some result =>
          { diags := []
            model :=
              { data with
                id := .value result.id
                slug := .value result.slug
                name := .value result.name
                status := .value result.status
                version := .value result.version
                createdAt :=
                  match result.created_at with
                  | some t => .value t
                  | none => data.createdAt
                updatedAt :=
                  match result.updated_at with
                  | some t => .value t
                  | none => data.updatedAt }
            requests := [req] }

/-- readFunction from function_resource.go: one get request; a transport
error is a diagnostic; 404 returns nil diagnostics with the model
untouched; a missing JSON200 payload is a diagnostic; otherwise the model
is overwritten from the response (verify_jwt only when present). -/
def readFunction (data : FunctionResourceModel)
    (transport : Transport GetHttpResponse) : HelperResult :=
  let req : Request :=
    .getFunction data.projectRef.valueString data.slug.valueString
  match transport with
  | .err e =>
      { diags := [clientError ("Unable to read function, got error: " ++ e)]
        model := data, requests := [req] }
  | .ok resp =>
      if resp.statusCode = 404 then
        { diags := [], model := data, requests := [req] }
      else
        match resp.json200 with
        | none =>
            { diags := [clientError ("Unable to read function, got status "
                ++ toString resp.statusCode ++ ": " ++ resp.body)]
              model := data, requests := [req] }
        | some result =>
            { diags := []
              model :=
                { data with
                  id := .value result.id
                  slug := .value result.slug
                  name := .value result.name
                  status := .value result.status
                  version := .value result.version
                  createdAt := .value result.created_at
                  updatedAt := .value result.updated_at
                  verifyJwt :=
                    match result.verify_jwt with
                    | some b => .value b
                    | none => data.verifyJwt }
              requests := [req] }

/-- deleteFunction from function_resource.go: one delete request; transport
errors are diagnostics; 404 and 200 succeed silently; any other status is a
diagnostic. -/
def deleteFunction (data : FunctionResourceModel)
    (transport : Transport DeleteHttpResponse) :
    List Diagnostic × List Request :=
  let req : Request :=
    .deleteFunction data.projectRef.valueString data.slug.valueString
  match transport with
  | .err e =>
      ([clientError ("Unable to delete function, got error: " ++ e)], [req])
  | .ok resp =>
      if resp.statusCode = 404 then ([], [req])
      else if resp.statusCode ≠ 200 then
        ([clientError ("Unable to delete function, got status "
            ++ toString resp.statusCode ++ ": " ++ resp.body)], [req])
      else ([], [req])

/-- What a handler did to the Terraform state: returned before calling
resp.State.Set (error path), called resp.State.Set with a model, or called
resp.State.RemoveResource (which this provider never does). -/
inductive StateOutcome where
  | notWritten
  | set (m : FunctionResourceModel)
  | removed
deriving Repr, DecidableEq

/-- Result of one resource or data-source handler invocation. -/
structure OpResult where
  diags : List Diagnostic
  outcome : StateOutcome
  requests : List Request
deriving Repr, DecidableEq

/-- FunctionResource.Create: read the planned model, deployFunction, and
write the resulting model to state unless a diagnostic was raised. -/
def functionResourceCreate (plan : FunctionResourceModel) (fs : List FsEntry)
    (transport : Transport DeployHttpResponse) : OpResult :=
  let r := deployFunction plan fs transport
  if hasError r.diags then
    { diags := r.diags, outcome := .notWritten, requests := r.requests }
  else
    { diags := r.diags, outcome := .set r.model, requests := r.requests }

/-- FunctionResource.Update: read the planned model, deployFunction, and
write the resulting model to state unless a diagnostic was raised. -/
def functionResourceUpdate (plan : FunctionResourceModel) (fs : List FsEntry)
    (transport : Transport DeployHttpResponse) : OpResult :=
  let r := deployFunction plan fs transport
  if hasError r.diags then
    { diags := r.diags, outcome := .notWritten, requests := r.requests }
  else
    { diags := r.diags, outcome := .set r.model, requests := r.requests }

/-- FunctionResource.Read: read the prior state model, readFunction, and
write the resulting model back unless a diagnostic was raised. -/
def functionResourceRead (state : FunctionResourceModel)
    (transport : Transport GetHttpResponse) : OpResult :=
  let r := readFunction state transport
  if hasError r.diags then
    { diags := r.diags, outcome := .notWritten, requests := r.requests }
  else
    { diags := r.diags, outcome := .set r.model, requests := r.requests }

/-- FunctionResource.Delete: read the prior state model and deleteFunction;
Delete never writes state itself (the framework removes the resource when
the handler returns without error diagnostics). -/
def functionResourceDelete (state : FunctionResourceModel)
    (transport : Transport DeleteHttpResponse) :
    List Diagnostic × List Request :=
  deleteFunction state transport

/-- FunctionBodyDataSourceModel from function_body_data_source.go. -/
structure FunctionBodyDataSourceModel where
  projectRef : TfString
  slug : TfString
  body : TfString
deriving Repr, DecidableEq

/-- Result of the data-source Read handler. -/
inductive BodyStateOutcome where
  | notWritten
  | set (m : FunctionBodyDataSourceModel)
deriving Repr, DecidableEq

/-- Result record of FunctionBodyDataSource.Read. -/
structure BodyOpResult where
  diags : List Diagnostic
  outcome : BodyStateOutcome
  requests : List Request
deriving Repr, DecidableEq

/-- FunctionBodyDataSource.Read: one get-body request; a transport error or
a non-200 status is an error diagnostic with no state written; otherwise
the configured model with body set to the raw response bytes as a string
is written to state. -/
def functionBodyDataSourceRead (config : FunctionBodyDataSourceModel)
    (transport : Transport BodyHttpResponse) : BodyOpResult :=
  let req : Request :=
    .getFunctionBody config.projectRef.valueString config.slug.valueString
  match transport with
  | .err e =>
      { diags := [clientError ("Unable to read function body, got error: " ++ e)]
        outcome := .notWritten, requests := [req] }
  | .ok resp =>
      if resp.statusCode ≠ 200 then
        { diags := [clientError ("Unable to read function body, got status "
            ++ toString resp.statusCode ++ ": " ++ resp.body)]
          outcome := .notWritten, requests := [req] }
      else
        { diags := []
          outcome := .set { config with body := .value resp.body }
          requests := [req] }

/-- The schema's default for verify_jwt: booldefault.StaticBool(true). -/
def verifyJwtDefault : Bool := true

/-- Modelled from the spec and the terraform-plugin-framework contract for
Default on a Computed+Optional attribute (the framework itself is outside
this repository): when the configuration leaves verify_jwt null, the plan
receives the schema's static default before Create/Update runs.  All other
attributes carry no default. -/
def applyDefaults (config : FunctionResourceModel) : FunctionResourceModel :=
  { config with
    verifyJwt :=
      if config.verifyJwt.isNull then .value verifyJwtDefault
      else config.verifyJwt }

/-- An ASCII letter, the character class [A-Za-z]. -/
def isAsciiLetter (c : Char) : Bool :=
  ('A' ≤ c && c ≤ 'Z') || ('a' ≤ c && c ≤ 'z')

/-- A character of the class [A-Za-z0-9_-]. -/
def isSlugChar (c : Char) : Bool :=
  isAsciiLetter c || ('0' ≤ c && c ≤ '9') || c = '_' || c = '-'

/-- The slug validator's regular expression from the schema,
^[A-Za-z][A-Za-z0-9_-]*$ : a leading letter followed by letters, digits,
underscores and hyphens. -/
def slugMatches (s : String) : Bool :=
  match s.data with
  | [] => false
  | c :: rest => isAsciiLetter c && rest.all isSlugChar

/-- Modelled from the spec and the terraform-plugin-framework contract for
schema validators (the framework itself is outside this repository): the
stringvalidator.RegexMatches validator on slug rejects the configuration
during validation, before any resource handler runs, when the configured
slug does not match the regular expression.  A validated Create therefore
only reaches deployFunction when slugMatches holds. -/
def validatedCreate (config : FunctionResourceModel) (fs : List FsEntry)
    (transport : Transport DeployHttpResponse) : OpResult :=
  if slugMatches config.slug.valueString then
    functionResourceCreate config fs transport
  else
    { diags := [{ summary := "Invalid Attribute Value Match"
                  detail := "must start with a letter and contain only letters, numbers, underscores, and hyphens" }]
      outcome := .notWritten
      requests := [] }

/-- Outcome of filepath.Walk over source_dir: either the tree of entries
it visited, or the error it returned (nonexistent source_dir, a failing
os.Open or io.Copy inside the callback), which aborts the walk. -/
inductive WalkResult where
  | ok (entries : List FsEntry)
  | err (msg : String)

/-- deployFunction from function_resource.go in full: when filepath.Walk
over source_dir fails, the error branch after the walk returns the
"Unable to read source directory" diagnostic before any API call is made
(no request is issued); when the walk succeeds, the deploy proceeds on the
tree of regular files it produced. -/
def deployFunctionFull (data : FunctionResourceModel) (w : WalkResult)
    (transport : Transport DeployHttpResponse) : HelperResult :=
  match w with
  | .err e =>
      { diags := [clientError ("Unable to read source directory, got error: " ++ e)]
        model := data, requests := [] }
  | .ok fs => deployFunction data fs transport

/-- FunctionResource.Create over the full deployFunction (walk-failure
branch included). -/
def functionResourceCreateFull (plan : FunctionResourceModel)
    (w : WalkResult) (transport : Transport DeployHttpResponse) : OpResult :=
  let r := deployFunctionFull plan w transport
  if hasError r.diags then
    { diags := r.diags, outcome := .notWritten, requests := r.requests }
  else
    { diags := r.diags, outcome := .set r.model, requests := r.requests }

/-- FunctionResource.Update over the full deployFunction (walk-failure
branch included). -/
def functionResourceUpdateFull (plan : FunctionResourceModel)
    (w : WalkResult) (transport : Transport DeployHttpResponse) : OpResult :=
  let r := deployFunctionFull plan w transport
  if hasError r.diags then
    { diags := r.diags, outcome := .notWritten, requests := r.requests }
  else
    { diags := r.diags, outcome := .set r.model, requests := r.requests }

/-- A concrete deploy response carrying a parsed 201 payload. -/
def sample201Response : DeployHttpResponse :=
  { statusCode := 201, body := ""
    json201 := some { id := "uuid-1", slug := "hello-world"
                      name := "hello-world", status := "ACTIVE"
                      version := 3, created_at := some 1700000000
                      updated_at := none } }

/-- A fixed sample configuration used to instantiate hypotheses of the
theorems below at concrete inputs. -/
def sampleModel : FunctionResourceModel :=
  { projectRef := .value "proj", slug := .value "hello-world"
    entrypointPath := .value "index.ts", sourceDir := .value "./fn"
    name := .null, verifyJwt := .value true, importMapPath := .null
    id := .unknown, status := .unknown, version := .unknown
    createdAt := .unknown, updatedAt := .unknown }

mutual

theorem walkEntry_eq (pre : String) (acc : List FormPart) :
    (e : FsEntry) →
    walkEntry pre acc e
      = acc ++ (filesOfEntry pre e).map (fun f => filePart f.1 f.2)
  | .file nm c => by
      simp [walkEntry, filesOfEntry]
  | .dir nm es => by
      rw [walkEntry, filesOfEntry, walkEntries_eq (joinRel pre nm) acc es]

theorem walkEntries_eq (pre : String) (acc : List FormPart) :
    (es : List FsEntry) →
    walkEntries pre acc es
      = acc ++ (filesOfEntries pre es).map (fun f => filePart f.1 f.2)
  | [] => by
      simp [walkEntries, filesOfEntries]
  | e :: es => by
      rw [walkEntries, walkEntries_eq pre (walkEntry pre acc e) es,
        walkEntry_eq pre acc e, filesOfEntries]
      simp

end

/-- C1: every Create or Update deploy issues exactly the multipart body
whose first part is the "metadata" form field holding the JSON encoding of
the metadata (entrypoint_path always; name, verify_jwt, import_map_path
when non-null and known), followed by one "file" part per regular file
reachable under source_dir (directories skipped), named by its
slash-separated path relative to source_dir and carrying its bytes. -/
theorem deployFunction_multipart_body (data : FunctionResourceModel)
    (fs : List FsEntry) (tr : Transport DeployHttpResponse) :
    (deployFunction data fs tr).requests
      = [Request.deploy data.projectRef.valueString data.slug.valueStringPointer
          ({ name := "metadata", filename := none
             content := encodeMetadata (buildMetadata data) ++ "\n" }
            :: (filesOfEntries "" fs).map (fun f =>
                  { name := "file", filename := some f.1, content := f.2 }))] := by
  have hbody : deployBody data fs
      = { name := "metadata", filename := none
          content := encodeMetadata (buildMetadata data) ++ "\n" }
        :: (filesOfEntries "" fs).map (fun f =>
              { name := "file", filename := some f.1, content := f.2 }) := by
    rw [deployBody, walkEntries_eq]
    rfl
  cases tr with
  | err e => simp [deployFunction, hbody]
  | ok resp =>
      cases hj : resp.json201 <;> simp [deployFunction, hbody, hj]

/-- C2: a 404 response to the get or delete call is treated as the
function not existing: readFunction and deleteFunction return no
diagnostics on it. -/
theorem notFound_no_diagnostics (data : FunctionResourceModel)
    (gresp : GetHttpResponse) (dresp : DeleteHttpResponse)
    (hg : gresp.statusCode = 404) (hd : dresp.statusCode = 404) :
    (readFunction data (.ok gresp)).diags = []
      ∧ (deleteFunction data (.ok dresp)).1 = [] := by
  constructor
  · simp [readFunction, hg]
  · simp [deleteFunction, hd]

theorem notFound_no_diagnostics_witness :
    (readFunction sampleModel
        (.ok { statusCode := 404, body := "", json200 := none })).diags = []
      ∧ (deleteFunction sampleModel
          (.ok { statusCode := 404, body := "" })).1 = [] :=
  notFound_no_diagnostics sampleModel
    { statusCode := 404, body := "", json200 := none }
    { statusCode := 404, body := "" } rfl rfl

/-- C3: Update performs the same operation as Create: both read the
planned model, call deployFunction on it, and write the same state. -/
theorem update_eq_create (plan : FunctionResourceModel) (fs : List FsEntry)
    (tr : Transport DeployHttpResponse) :
    functionResourceUpdate plan fs tr = functionResourceCreate plan fs tr :=
  rfl

/-- A fixed sample data-source configuration for concrete instantiation. -/
def sampleBodyConfig : FunctionBodyDataSourceModel :=
  { projectRef := .value "proj", slug := .value "hello-world", body := .null }

/-- C4: every data-source read issues exactly one get-body request, and on
a 200 response the stored body is the raw response bytes as a string while
project_ref and slug stay as configured. -/
theorem body_data_source_read_ok (config : FunctionBodyDataSourceModel)
    (resp : BodyHttpResponse) (h : resp.statusCode = 200) :
    (∀ tr : Transport BodyHttpResponse,
      (functionBodyDataSourceRead config tr).requests
        = [Request.getFunctionBody config.projectRef.valueString
            config.slug.valueString])
      ∧ functionBodyDataSourceRead config (.ok resp)
        = { diags := []
            outcome := .set { projectRef := config.projectRef
                              slug := config.slug
                              body := .value resp.body }
            requests := [Request.getFunctionBody config.projectRef.valueString
                          config.slug.valueString] } := by
  constructor
  · intro tr
    cases tr with
    | err e => simp [functionBodyDataSourceRead]
    | ok r =>
        by_cases h200 : r.statusCode = 200 <;>
          simp [functionBodyDataSourceRead, h200]
  · simp [functionBodyDataSourceRead, h]

theorem body_data_source_read_ok_witness :
    (functionBodyDataSourceRead sampleBodyConfig (.err "boom")).requests
        = [Request.getFunctionBody "proj" "hello-world"]
      ∧ functionBodyDataSourceRead sampleBodyConfig
          (.ok { statusCode := 200, body := "console.log(1)" })
        = { diags := []
            outcome := .set { projectRef := .value "proj"
                              slug := .value "hello-world"
                              body := .value "console.log(1)" }
            requests := [Request.getFunctionBody "proj" "hello-world"] } :=
  ⟨(body_data_source_read_ok sampleBodyConfig
      { statusCode := 200, body := "console.log(1)" } rfl).1 (.err "boom"),
   (body_data_source_read_ok sampleBodyConfig
      { statusCode := 200, body := "console.log(1)" } rfl).2⟩

/-- C5: on a parsed 201 payload, the state's id, slug, name, status and
version come from the response, overwriting the planned values, and
created_at / updated_at come from the response exactly when the response
carries them (otherwise they keep the planned value). -/
theorem deploy_success_state (data : FunctionResourceModel)
    (fs : List FsEntry) (resp : DeployHttpResponse)
    (result : FunctionResponse201) (h : resp.json201 = some result) :
    ((deployFunction data fs (.ok resp)).model).id = .value result.id
      ∧ ((deployFunction data fs (.ok resp)).model).slug = .value result.slug
      ∧ ((deployFunction data fs (.ok resp)).model).name = .value result.name
      ∧ ((deployFunction data fs (.ok resp)).model).status = .value result.status
      ∧ ((deployFunction data fs (.ok resp)).model).version = .value result.version
      ∧ ((deployFunction data fs (.ok resp)).model).createdAt
          = (match result.created_at with
             | some t => TfInt64.value t
             | none => data.createdAt)
      ∧ ((deployFunction data fs (.ok resp)).model).updatedAt
          = (match result.updated_at with
             | some t => TfInt64.value t
             | none => data.updatedAt) := by
  simp [deployFunction, h]

theorem deploy_success_state_witness :
    ((deployFunction sampleModel []
        (.ok { statusCode := 201, body := ""
               json201 := some { id := "uuid-1", slug := "hello-world"
                                 name := "hello-world", status := "ACTIVE"
                                 version := 3, created_at := some 1700000000
                                 updated_at := none } })).model).id
        = .value "uuid-1"
      ∧ ((deployFunction sampleModel []
          (.ok { statusCode := 201, body := ""
                 json201 := some { id := "uuid-1", slug := "hello-world"
                                   name := "hello-world", status := "ACTIVE"
                                   version := 3, created_at := some 1700000000
                                   updated_at := none } })).model).createdAt
        = TfInt64.value 1700000000 :=
  ⟨(deploy_success_state sampleModel []
      { statusCode := 201, body := ""
        json201 := some { id := "uuid-1", slug := "hello-world"
                          name := "hello-world", status := "ACTIVE"
                          version := 3, created_at := some 1700000000
                          updated_at := none } }
      { id := "uuid-1", slug := "hello-world", name := "hello-world"
        status := "ACTIVE", version := 3, created_at := some 1700000000
        updated_at := none } rfl).1,
   (deploy_success_state sampleModel []
      { statusCode := 201, body := ""
        json201 := some { id := "uuid-1", slug := "hello-world"
                          name := "hello-world", status := "ACTIVE"
                          version := 3, created_at := some 1700000000
                          updated_at := none } }
      { id := "uuid-1", slug := "hello-world", name := "hello-world"
        status := "ACTIVE", version := 3, created_at := some 1700000000
        updated_at := none } rfl).2.2.2.2.2.1⟩

/-- C6 counterexample: the claim as stated is false of the code.  When the
source_dir walk fails (here: source_dir does not exist) while the
transport would have answered with a parsed 201 payload, deployFunction
returns an error diagnostic even though the transport call did not err and
the response does not lack a parsed 201 body — indeed no request is issued
at all. -/
theorem deploy_diagnostics_counterexample :
    hasError (deployFunctionFull sampleModel
        (.err "lstat ./fn: no such file or directory")
        (.ok sample201Response)).diags = true
      ∧ sample201Response.json201 ≠ none
      ∧ (deployFunctionFull sampleModel
          (.err "lstat ./fn: no such file or directory")
          (.ok sample201Response)).requests = [] := by
  decide

/-- C6 (amended): an error diagnostic is returned exactly on failure, and
on failure no state is written: deployFunction errs iff the source
directory walk fails, the transport errs, or the response lacks a parsed
201 payload; the data-source read errs iff the transport errs or the
status is not 200. -/
theorem diagnostics_iff_failure_amended (data : FunctionResourceModel)
    (w : WalkResult) (config : FunctionBodyDataSourceModel)
    (tr : Transport DeployHttpResponse) (tb : Transport BodyHttpResponse) :
    (hasError (deployFunctionFull data w tr).diags = true
      ↔ (match w with
         | .err _ => True
         | .ok _ =>
            match tr with
            | .err _ => True
            | .ok resp => resp.json201 = none))
      ∧ (hasError (deployFunctionFull data w tr).diags = true
          → (functionResourceCreateFull data w tr).outcome = .notWritten
            ∧ (functionResourceUpdateFull data w tr).outcome = .notWritten)
      ∧ (hasError (functionBodyDataSourceRead config tb).diags = true
          ↔ (match tb with
             | .err _ => True
             | .ok resp => resp.statusCode ≠ 200))
      ∧ (hasError (functionBodyDataSourceRead config tb).diags = true
          → (functionBodyDataSourceRead config tb).outcome = .notWritten) := by
  refine ⟨?_, ?_, ?_, ?_⟩
  · cases w with
    | err e => simp [deployFunctionFull, hasError]
    | ok fs =>
        cases tr with
        | err e => simp [deployFunctionFull, deployFunction, hasError]
        | ok r =>
            cases hj : r.json201 <;>
              simp [deployFunctionFull, deployFunction, hasError, hj]
  · intro herr
    constructor <;>
      simp [functionResourceCreateFull, functionResourceUpdateFull, herr]
  · cases tb with
    | err e => simp [functionBodyDataSourceRead, hasError]
    | ok r =>
        by_cases h200 : r.statusCode = 200 <;>
          simp [functionBodyDataSourceRead, hasError, h200]
  · intro herr
    cases tb with
    | err e => simp [functionBodyDataSourceRead]
    | ok r =>
        by_cases h200 : r.statusCode = 200
        · rw [functionBodyDataSourceRead] at herr ⊢
          simp [h200, hasError] at herr
        · simp [functionBodyDataSourceRead, h200]

theorem diagnostics_iff_failure_amended_witness :
    hasError (deployFunctionFull sampleModel (.ok []) (.err "boom")).diags
        = true
      ∧ (functionResourceCreateFull sampleModel (.err "walkfail")
          (.ok sample201Response)).outcome = .notWritten
      ∧ (functionBodyDataSourceRead sampleBodyConfig
          (.ok { statusCode := 500, body := "oops" })).outcome
          = .notWritten :=
  ⟨(diagnostics_iff_failure_amended sampleModel (.ok []) sampleBodyConfig
      (.err "boom") (.ok { statusCode := 500, body := "oops" })).1.mpr trivial,
   ((diagnostics_iff_failure_amended sampleModel (.err "walkfail")
      sampleBodyConfig (.ok sample201Response)
      (.ok { statusCode := 500, body := "oops" })).2.1 (by decide)).1,
   (diagnostics_iff_failure_amended sampleModel (.ok []) sampleBodyConfig
      (.err "boom") (.ok { statusCode := 500, body := "oops" })).2.2.2
      (by decide)⟩

/-- C7: no operation retries: each invocation of deployFunction,
readFunction, deleteFunction and the data-source read issues at most one
HTTP request, whatever the transport outcome. -/
theorem at_most_one_request (data : FunctionResourceModel)
    (fs : List FsEntry) (config : FunctionBodyDataSourceModel)
    (t1 : Transport DeployHttpResponse) (t2 : Transport GetHttpResponse)
    (t3 : Transport DeleteHttpResponse) (t4 : Transport BodyHttpResponse) :
    (deployFunction data fs t1).requests.length ≤ 1
      ∧ (readFunction data t2).requests.length ≤ 1
      ∧ (deleteFunction data t3).2.length ≤ 1
      ∧ (functionBodyDataSourceRead config t4).requests.length ≤ 1 := by
  refine ⟨?_, ?_, ?_, ?_⟩
  · cases t1 with
    | err e => simp [deployFunction]
    | ok r => cases hj : r.json201 <;> simp [deployFunction, hj]
  · cases t2 with
    | err e => simp [readFunction]
    | ok r =>
        by_cases h4 : r.statusCode = 404
        · simp [readFunction, h4]
        · cases hj : r.json200 <;> simp [readFunction, h4, hj]
  · cases t3 with
    | err e => simp [deleteFunction]
    | ok r =>
        by_cases h4 : r.statusCode = 404
        · simp [deleteFunction, h4]
        · by_cases h200 : r.statusCode = 200 <;>
            simp [deleteFunction, h4, h200]
  · cases t4 with
    | err e => simp [functionBodyDataSourceRead]
    | ok r =>
        by_cases h200 : r.statusCode = 200 <;>
          simp [functionBodyDataSourceRead, h200]

/-- C8: when Read of the function resource gets a 404, the prior state
model is written back unchanged (every field keeps its previous value),
with no diagnostics, and the resource is not removed from state. -/
theorem read_404_state_unchanged (state : FunctionResourceModel)
    (resp : GetHttpResponse) (h : resp.statusCode = 404) :
    functionResourceRead state (.ok resp)
      = { diags := []
          outcome := .set state
          requests := [Request.getFunction state.projectRef.valueString
                        state.slug.valueString] } := by
  simp [functionResourceRead, readFunction, h, hasError]

theorem read_404_state_unchanged_witness :
    functionResourceRead sampleModel
        (.ok { statusCode := 404, body := "", json200 := none })
      = { diags := []
          outcome := .set sampleModel
          requests := [Request.getFunction "proj" "hello-world"] } :=
  read_404_state_unchanged sampleModel
    { statusCode := 404, body := "", json200 := none } rfl

/-- C9: if verify_jwt is omitted (null in the configuration), the schema
default makes it true, so the metadata built for the deploy carries
verify_jwt = true, its JSON encoding ends with the verify_jwt:true member,
and the deploy request's first form part carries that encoding. -/
theorem verify_jwt_default_true (config : FunctionResourceModel)
    (fs : List FsEntry) (tr : Transport DeployHttpResponse)
    (h : config.verifyJwt = TfBool.null) :
    (buildMetadata (applyDefaults config)).verify_jwt = some true
      ∧ (∃ s, encodeMetadata (buildMetadata (applyDefaults config))
          = s ++ ",\"verify_jwt\":true\x7d")
      ∧ (∃ rest, (deployFunction (applyDefaults config) fs tr).requests
          = [Request.deploy (applyDefaults config).projectRef.valueString
              (applyDefaults config).slug.valueStringPointer
              ({ name := "metadata", filename := none
                 content := encodeMetadata (buildMetadata (applyDefaults config))
                   ++ "\n" }
                :: rest)]) := by
  have hvj : (buildMetadata (applyDefaults config)).verify_jwt = some true := by
    simp [buildMetadata, applyDefaults, h, TfBool.isNull, TfBool.isUnknown,
      TfBool.valueBool, verifyJwtDefault]
  refine ⟨hvj, ?_, ?_⟩
  · rw [encodeMetadata, hvj]
    refine ⟨"\x7b\"entrypoint_path\":"
        ++ jsonString (buildMetadata (applyDefaults config)).entrypoint_path
      ++ (match (buildMetadata (applyDefaults config)).import_map_path with
          | none => ""
          | some p => ",\"import_map_path\":" ++ jsonString p)
      ++ (match (buildMetadata (applyDefaults config)).name with
          | none => ""
          | some n => ",\"name\":" ++ jsonString n)
      ++ (match (buildMetadata (applyDefaults config)).static_patterns with
          | [] => ""
          | ps => ",\"static_patterns\":" ++ jsonStringArray ps), ?_⟩
    rw [String.append_assoc]
    rfl
  · refine ⟨(filesOfEntries "" fs).map (fun f => filePart f.1 f.2), ?_⟩
    have hbody : deployBody (applyDefaults config) fs
        = { name := "metadata", filename := none
            content := encodeMetadata (buildMetadata (applyDefaults config))
              ++ "\n" }
          :: (filesOfEntries "" fs).map (fun f => filePart f.1 f.2) := by
      rw [deployBody, walkEntries_eq]
      rfl
    cases tr with
    | err e => simp [deployFunction, hbody]
    | ok resp => cases hj : resp.json201 <;> simp [deployFunction, hbody, hj]

theorem verify_jwt_default_true_witness :
    (buildMetadata (applyDefaults { sampleModel with verifyJwt := .null })).verify_jwt
        = some true
      ∧ (∃ s, encodeMetadata
            (buildMetadata (applyDefaults { sampleModel with verifyJwt := .null }))
          = s ++ ",\"verify_jwt\":true\x7d") :=
  ⟨(verify_jwt_default_true { sampleModel with verifyJwt := .null } []
      (.err "boom") rfl).1,
   (verify_jwt_default_true { sampleModel with verifyJwt := .null } []
      (.err "boom") rfl).2.1⟩

/-- A sample configuration whose slug violates the schema's regular
expression (it starts with a digit). -/
def badSlugModel : FunctionResourceModel :=
  { sampleModel with slug := .value "9bad" }

/-- C10: the slug validator gates the deploy: a configuration whose slug
does not match ^[A-Za-z][A-Za-z0-9_-]*$ is rejected before any API call
(no request issued), and when validation passes the single deploy request
carries exactly the validated slug. -/
theorem slug_validation_guards_requests (config : FunctionResourceModel)
    (fs : List FsEntry) (tr : Transport DeployHttpResponse) :
    (slugMatches config.slug.valueString = false
      → (validatedCreate config fs tr).requests = [])
      ∧ (slugMatches config.slug.valueString = true
          → (validatedCreate config fs tr).requests
            = [Request.deploy config.projectRef.valueString
                (some config.slug.valueString) (deployBody config fs)]) := by
  constructor
  · intro hs
    simp [validatedCreate, hs]
  · intro hs
    have hp : config.slug.valueStringPointer = some config.slug.valueString := by
      cases hc : config.slug with
      | null =>
          rw [hc] at hs
          simp [TfString.valueString, slugMatches] at hs
      | unknown =>
          rw [hc] at hs
          simp [TfString.valueString, slugMatches] at hs
      | value s => rfl
    rw [validatedCreate]
    rw [if_pos hs]
    cases tr with
    | err e =>
        simp [functionResourceCreate, deployFunction, hasError, hp]
    | ok resp =>
        cases hj : resp.json201 <;>
          simp [functionResourceCreate, deployFunction, hasError, hp, hj]

theorem slug_validation_guards_requests_witness :
    (validatedCreate badSlugModel [] (.err "boom")).requests = []
      ∧ (validatedCreate sampleModel [] (.err "boom")).requests
        = [Request.deploy "proj" (some "hello-world")
            (deployBody sampleModel [])] :=
  ⟨(slug_validation_guards_requests badSlugModel [] (.err "boom")).1 (by decide),
   (slug_validation_guards_requests sampleModel [] (.err "boom")).2 (by decide)⟩
